import Mathlib

/- Shallow embedding of the PR-extraction core of DDNStorage/augment-agent:
   the `GitHubService` adapter (src/services/github-service.ts) and the
   `PRExtractor` orchestrator (src/template/extractors/pr-extractor.ts).

   Modelling conventions:
   - JavaScript strings are modelled as Lean `String` (diff texts and URLs,
     where character-level reasoning is needed, as `List Char`); every `Char`
     stands for one UTF-16 code unit of the basic multilingual plane, so JS
     `string.length` is `List.length` and `substring` is `List.take`.
   - JS `undefined`/`null` field values are modelled with `Option`.
   - Remote HTTP responses are oracle parameters (`Except JsError _`), since
     the Octokit client is an external collaborator.
   - Async/await is irrelevant to the claims (single sequential flow) and is
     elided; each awaited call is a value of the oracle. -/

namespace PRX

/-- Errors as thrown at run time by the code under verification.
`httpError` is an Octokit request error carrying an HTTP `status` field;
`typeError` is the TypeError raised by a property access on
`undefined`/`null`; `error` is a plain JS `new Error(message)`.
`authenticationError` and `notFoundError` are the categorized error classes
named by the specification's error taxonomy (spec section 7); the source code
never constructs them — they exist in the model so that claims about error
categories can be stated and refuted. -/
inductive JsError where
  | httpError (status : Nat) (message : String)
  | typeError (message : String)
  | error (message : String)
  | authenticationError (message : String)
  | notFoundError (message : String)
deriving DecidableEq

/-- The `error.status` property read by the catch blocks: present only on
Octokit HTTP errors. -/
def JsError.statusOf : JsError → Option Nat
  | .httpError s _ => some s
  | _ => none

/-- The `error.message` property. -/
def JsError.message : JsError → String
  | .httpError _ m => m
  | .typeError m => m
  | .error m => m
  | .authenticationError m => m
  | .notFoundError m => m

/-- Error categories of the specification's taxonomy (spec section 7),
used to state claims about programmatic distinguishability of failures. -/
inductive ErrorCategory where
  | authentication
  | notFound
  | http
  | typeErr
  | generic
deriving DecidableEq

def JsError.category : JsError → ErrorCategory
  | .httpError _ _ => .http
  | .typeError _ => .typeErr
  | .error _ => .generic
  | .authenticationError _ => .authentication
  | .notFoundError _ => .notFound

inductive LogLevel where
  | debug
  | info
  | warning
  | error
deriving DecidableEq

structure LogEntry where
  level : LogLevel
  message : String
deriving DecidableEq

/-- JS truthiness of an optional string (`undefined` and the empty string are
falsy); GitHub Actions delivers unset inputs as absent or empty strings, so
presence checks in the source are truthiness checks. -/
def jsTruthyStr : Option String → Bool
  | none => false
  | some s => s != ""

/-- JS truthiness of an optional number (`undefined` and `0` are falsy). -/
def jsTruthyNum : Option Int → Bool
  | none => false
  | some n => n != 0

/-- The JS comparison `x > 0` where `x` may be `undefined`
(`undefined > 0` evaluates to `false`). -/
def jsGtZero : Option Int → Bool
  | none => false
  | some n => decide (0 < n)

/-- The JS `x || dflt` idiom on an optional string: the empty string is the
only falsy string, so it also selects the default. -/
def jsOrString (x : Option String) (dflt : String) : String :=
  match x with
  | some s => if s = "" then dflt else s
  | none => dflt

/-- UTF-8 byte length of a text, as computed by `Buffer.byteLength(s, 'utf8')`
(github-service.ts line 296). -/
def utf8ByteLength (s : List Char) : Nat :=
  (s.map Char.utf8Size).sum

/-- Number of start positions at which `pat` occurs as a contiguous
substring of `s`. -/
def countOccurs (pat s : List Char) : Nat :=
  ((List.range (s.length + 1)).filter (fun i => pat.isPrefixOf (s.drop i))).length

/-- The GitHub Enterprise API path suffix checked by the constructor. -/
def apiV3 : List Char := "/api/v3".toList

/-- Base-URL adjustment performed by the `GitHubService` constructor
(github-service.ts lines 22-33): if the configured URL does not already end
with `/api/v3`, the suffix is appended, accounting for a trailing slash. -/
def normalizeBaseUrl (baseUrl : List Char) : List Char :=
  if apiV3.isSuffixOf baseUrl then baseUrl
  else if ['/'].isSuffixOf baseUrl then baseUrl ++ "api/v3".toList
  else baseUrl ++ apiV3

/- ---------------------------------------------------------------------
   Raw response shapes of the hosting API (octokit `pulls.get` payload),
   with every field that the mapping dereferences modelled as optional so
   that absent/null responses can be described. -/

structure RawUser where
  login : Option String
deriving DecidableEq

structure RawRepoOwner where
  login : Option String
deriving DecidableEq

structure RawRepo where
  full_name : Option String
  name : Option String
  owner : Option RawRepoOwner
deriving DecidableEq

structure RawBranch where
  ref : Option String
  sha : Option String
  repo : Option RawRepo
deriving DecidableEq

structure RawPR where
  number : Int
  title : Option String
  body : Option String
  state : Option String
  user : Option RawUser
  head : Option RawBranch
  base : Option RawBranch
deriving DecidableEq

structure RawFile where
  filename : String
  status : String
  additions : Int
  deletions : Int
  changes : Int
deriving DecidableEq

/- Local types returned by the adapter (src/types/github).  Leaf fields keep
`Option`: the mapping copies them without defaulting, so an absent remote
value flows through. -/

structure OwnerInfo where
  login : Option String
deriving DecidableEq

structure RepoData where
  full_name : Option String
  name : Option String
  owner : OwnerInfo
deriving DecidableEq

structure BranchData where
  ref : Option String
  sha : Option String
  repo : RepoData
deriving DecidableEq

structure UserData where
  login : String
deriving DecidableEq

structure PullRequestInfo where
  number : Int
  title : Option String
  body : Option String
  state : Option String
  user : UserData
  head : BranchData
  base : BranchData
deriving DecidableEq

structure PullRequestFile where
  filename : String
  status : String
  additions : Int
  deletions : Int
  changes : Int
deriving DecidableEq

structure PullRequestDiff where
  content : List Char
  size : Nat
  truncated : Bool
deriving DecidableEq

/-- Translation of one branch object of the `pulls.get` payload
(github-service.ts lines 176-197).  A JS property access on an
`undefined`/`null` object throws a TypeError, so an absent `head`/`base`,
`repo`, or `owner` aborts the mapping; absent leaf fields (`ref`, `sha`,
`full_name`, `name`, `owner.login`) evaluate to `undefined` and are copied
through without any error or defaulting. -/
def branchData (b : Option RawBranch) : Except JsError BranchData :=
  match b with
  | none => .error (.typeError "Cannot read properties of undefined (reading ref)")
  | some bb =>
    match bb.repo with
    | none => .error (.typeError "Cannot read properties of undefined (reading full_name)")
    | some r =>
      match r.owner with
      | none => .error (.typeError "Cannot read properties of undefined (reading login)")
      | some o =>
        .ok { ref := bb.ref, sha := bb.sha,
              repo := { full_name := r.full_name, name := r.name,
                        owner := { login := o.login } } }

/-- Translation of the `pulls.get` payload into `PullRequestInfo`
(github-service.ts lines 170-198).  Only the author login is defaulted:
`data.user?.login || 'unknown'`.  The JS object literal evaluates the `head`
accesses before the `base` accesses. -/
def mapPullRequest (data : RawPR) : Except JsError PullRequestInfo := do
  let hd ← branchData data.head
  let bs ← branchData data.base
  .ok { number := data.number, title := data.title, body := data.body,
        state := data.state,
        user := { login := jsOrString (data.user.bind RawUser.login) "unknown" },
        head := hd, base := bs }

/-- Modelled from the spec: the constant `ERROR.GITHUB.API_ERROR` lives in
`src/config/constants`, which is not among the provided sources; the spec
describes these failures as "a generic API error", so the constant is
modelled as this string.  No claim depends on its exact value. -/
def API_ERROR : String := "GitHub API error"

/-- The remediation text logged for a 401 during metadata fetch
(github-service.ts lines 204-208, verbatim). -/
def authRemediation : String :=
  " - Authentication failed. This could be due to:\n1. Invalid or expired GitHub token\n2. Token doesn't have required permissions (needs 'repo' scope)\n3. For GitHub Enterprise: Incorrect github_api_url parameter\n4. For GitHub Enterprise: Token might need to be generated from the Enterprise instance"

/-- The remediation text logged for a 404 during metadata fetch
(github-service.ts lines 210-213, verbatim). -/
def notFoundRemediation : String :=
  " - Repository or PR not found. Check:\n1. Repository name format (should be 'owner/repo')\n2. PR number exists\n3. Token has access to the repository"

/-- Catch block of `getPullRequest` (github-service.ts lines 199-219):
logs remediation guidance chosen by the error's `status`, then re-raises the
original error object unchanged (`throw error`). -/
def getPullRequestCatch (pullNumber : Int) (e : JsError) : LogEntry × JsError :=
  let errorMessage := API_ERROR ++ ": Failed to fetch PR " ++ toString pullNumber
  if e.statusOf = some 401 then
    ({ level := .error, message := errorMessage ++ authRemediation }, e)
  else if e.statusOf = some 404 then
    ({ level := .error, message := errorMessage ++ notFoundRemediation }, e)
  else
    ({ level := .error, message := errorMessage }, e)

/-- Catch block of `getPullRequestFiles` (github-service.ts lines 278-281):
logs, then re-raises the original error unchanged. -/
def getPullRequestFilesCatch (e : JsError) : LogEntry × JsError :=
  ({ level := .error, message := API_ERROR ++ ": Failed to fetch PR files" }, e)

/-- Catch block of `getPullRequestDiff` (github-service.ts lines 304-307):
logs, then re-raises the original error unchanged. -/
def getPullRequestDiffCatch (e : JsError) : LogEntry × JsError :=
  ({ level := .error, message := API_ERROR ++ ": Failed to fetch PR diff" }, e)

/-- Catch block of `PRExtractor.writeDiffFile` (pr-extractor.ts lines
146-149): logs, then re-raises the original error unchanged. -/
def writeDiffFileCatch (e : JsError) : LogEntry × JsError :=
  ({ level := .error, message := "Failed to write diff file" }, e)

/-- Catch block of `testAuthentication` (github-service.ts lines 130-149):
logs the failure, then throws a NEW `Error` whose message is selected by the
status — the original error object is replaced, unlike in the other
operations. -/
def testAuthenticationCatch (e : JsError) : LogEntry × JsError :=
  ({ level := .error, message := "Authentication test failed" },
   if e.statusOf = some 401 then
     .error "GitHub authentication failed. Please check your token and ensure it has the required permissions."
   else if e.statusOf = some 404 then
     .error "GitHub API endpoint not found. Please verify the github_api_url is correct for your GitHub Enterprise instance."
   else
     .error ("GitHub API connectivity test failed: " ++ e.message))

namespace GitHubService

/-- `GitHubService.getPullRequest` (github-service.ts lines 152-220), with
the remote response supplied as an oracle.  Debug logging is elided; the
returned list holds the error-path log entries.  Both a failed request and a
TypeError thrown while translating the payload land in the same catch
block. -/
def getPullRequest (response : Except JsError RawPR) (pullNumber : Int) :
    Except JsError PullRequestInfo × List LogEntry :=
  match response with
  | .error e =>
    let r := getPullRequestCatch pullNumber e
    (.error r.2, [r.1])
  | .ok data =>
    match mapPullRequest data with
    | .error e =>
      let r := getPullRequestCatch pullNumber e
      (.error r.2, [r.1])
    | .ok info => (.ok info, [])

/-- Field-wise translation of one file entry (github-service.ts
lines 246-252). -/
def toPullRequestFile (f : RawFile) : PullRequestFile :=
  { filename := f.filename, status := f.status, additions := f.additions,
    deletions := f.deletions, changes := f.changes }

/-- The `while (true)` pagination loop of `getPullRequestFiles`
(github-service.ts lines 230-269), with the remote per-page responses as an
oracle and an explicit fuel bound standing for the (unbounded) iteration
count; `none` means the fuel ran out before the loop broke.  On success the
result carries the accumulated files and the last page number fetched. -/
def fetchFilesLoop (pages : Nat → Except JsError (List RawFile)) :
    Nat → Nat → List PullRequestFile → Option (Except JsError (List PullRequestFile × Nat))
  | 0, _, _ => none
  | fuel + 1, page, acc =>
    match pages page with
    | .error e => some (.error e)
    | .ok data =>
      let newAcc := acc ++ data.map toPullRequestFile
      if data.length < 100 then some (.ok (newAcc, page))
      else fetchFilesLoop pages fuel (page + 1) newAcc

/-- `GitHubService.getPullRequestFiles` (github-service.ts lines 222-282):
starts at page 1 with an empty accumulator and a fixed page size of 100; a
failure anywhere in the loop is re-raised unchanged through the catch
block. -/
def getPullRequestFiles (pages : Nat → Except JsError (List RawFile)) (fuel : Nat) :
    Option (Except JsError (List PullRequestFile × Nat)) :=
  match fetchFilesLoop pages fuel 1 [] with
  | none => none
  | some (.error e) => some (.error (getPullRequestFilesCatch e).2)
  | some (.ok r) => some (.ok r)

/-- Success-path computation of `getPullRequestDiff` (github-service.ts
lines 295-303).  `size` is the UTF-8 byte length of the full text;
`substring(0, MAX_DIFF_SIZE)` takes UTF-16 code units.  `maxDiffSize` stands
for `TEMPLATE_CONFIG.MAX_DIFF_SIZE`, a constant from `src/config/constants`
not among the provided sources, so it is a parameter of the model. -/
def diffOf (maxDiffSize : Nat) (content : List Char) : PullRequestDiff :=
  let size := utf8ByteLength content
  let truncated := decide (size > maxDiffSize)
  { content := if truncated then content.take maxDiffSize else content,
    size := size, truncated := truncated }

/-- `GitHubService.getPullRequestDiff` (github-service.ts lines 284-308). -/
def getPullRequestDiff (maxDiffSize : Nat) (response : Except JsError (List Char)) :
    Except JsError PullRequestDiff × List LogEntry :=
  match response with
  | .error e =>
    let r := getPullRequestDiffCatch e
    (.error r.2, [r.1])
  | .ok content => (.ok (diffOf maxDiffSize content), [])

end GitHubService

/- ---------------------------------------------------------------------
   GitHubService construction and the PRExtractor orchestrator. -/

structure GitHubServiceConfig where
  token : String
  owner : String
  repo : String
  baseUrl : Option (List Char)
deriving DecidableEq

/-- The state a successfully constructed `GitHubService` holds: the owner
and repo it was configured with and the (already normalized) base URL given
to the Octokit client. -/
structure GitHubServiceState where
  token : String
  owner : String
  repo : String
  baseUrl : Option (List Char)
deriving DecidableEq

/-- The `GitHubService` constructor (github-service.ts lines 15-100):
normalizes an optionally supplied base URL, then creates the Octokit client
(an external call that may throw, supplied as the oracle `octokitInit`); a
client-construction failure is wrapped in a new initialization `Error`
(line 77) which the outer catch re-raises.  No network request is made. -/
def GitHubService.construct (octokitInit : Option (List Char) → Except JsError Unit)
    (config : GitHubServiceConfig) : Except JsError GitHubServiceState :=
  let baseUrl := config.baseUrl.map normalizeBaseUrl
  match octokitInit baseUrl with
  | .error e => .error (.error ("Failed to initialize GitHub API client: " ++ e.message))
  | .ok _ =>
    .ok { token := config.token, owner := config.owner, repo := config.repo,
          baseUrl := baseUrl }

/-- The action input bundle (src/types/inputs); GitHub Actions delivers
unset inputs as absent or empty values, hence the `Option` fields and the
truthiness checks in the code. -/
structure ActionInputs where
  pullNumber : Option Int
  repoName : Option String
  githubToken : Option String
  githubApiUrl : Option (List Char)
deriving DecidableEq

/-- Result type of `ValidationUtils.parseRepoName` (src/utils/validation,
not among the provided sources; per the spec it splits an "owner/repo"
string and may throw, so the parser itself is an oracle parameter of
`PRExtractor.create`). -/
structure RepoInfo where
  owner : String
  repo : String
deriving DecidableEq

/-- A `PRExtractor`: either configured with a GitHub service or not
(pr-extractor.ts line 17, the optional constructor argument). -/
structure PRExtractor where
  githubService : Option GitHubServiceState
deriving DecidableEq

/-- `PRExtractor.create` (pr-extractor.ts lines 24-60): when repo name and
token are (truthily) present it tries to parse the repo name and eagerly
construct the service; any failure in that try block falls through to an
unconfigured extractor.  The function is total — creation never throws. -/
def PRExtractor.create (parseRepoName : String → Except JsError RepoInfo)
    (octokitInit : Option (List Char) → Except JsError Unit)
    (inputs : ActionInputs) : PRExtractor :=
  if jsTruthyStr inputs.repoName && jsTruthyStr inputs.githubToken then
    match parseRepoName (inputs.repoName.getD "") with
    | .error _ => { githubService := none }
    | .ok repoInfo =>
      match GitHubService.construct octokitInit
          { token := inputs.githubToken.getD "", owner := repoInfo.owner,
            repo := repoInfo.repo, baseUrl := inputs.githubApiUrl } with
      | .error _ => { githubService := none }
      | .ok svc => { githubService := some svc }
  else { githubService := none }

/-- `PRExtractor.shouldExtract` (pr-extractor.ts lines 65-67):
`!!(inputs.pullNumber && inputs.pullNumber > 0 && inputs.repoName &&
inputs.githubToken)`. -/
def PRExtractor.shouldExtract (inputs : ActionInputs) : Bool :=
  jsTruthyNum inputs.pullNumber && jsGtZero inputs.pullNumber &&
    jsTruthyStr inputs.repoName && jsTruthyStr inputs.githubToken

/- The final extraction record (src/types/context). -/

structure PRRepo where
  full_name : Option String
  name : Option String
  owner : Option String
deriving DecidableEq

structure PRBranch where
  ref : Option String
  sha : Option String
  repo : PRRepo
deriving DecidableEq

structure PRData where
  number : Int
  title : Option String
  author : String
  head : PRBranch
  base : PRBranch
  body : String
  state : Option String
  changed_files : String
  changed_files_list : List PullRequestFile
  diff_file : String
deriving DecidableEq

/-- JS `Array.prototype.join(sep)` on an array of strings. -/
def jsJoin (sep : String) : List String → String
  | [] => ""
  | [a] => a
  | a :: b :: rest => a ++ sep ++ jsJoin sep (b :: rest)

/-- Record assembly of `performExtraction` (pr-extractor.ts lines 89-116):
flattens the owner logins, defaults a null body via `prData.body || ''`,
and joins the filenames with newlines. -/
def assemblePRData (prData : PullRequestInfo) (files : List PullRequestFile)
    (diffFilePath : String) : PRData :=
  { number := prData.number, title := prData.title, author := prData.user.login,
    head := { ref := prData.head.ref, sha := prData.head.sha,
              repo := { full_name := prData.head.repo.full_name,
                        name := prData.head.repo.name,
                        owner := prData.head.repo.owner.login } },
    base := { ref := prData.base.ref, sha := prData.base.sha,
              repo := { full_name := prData.base.repo.full_name,
                        name := prData.base.repo.name,
                        owner := prData.base.repo.owner.login } },
    body := jsOrString prData.body "",
    state := prData.state,
    changed_files := jsJoin "\n" (files.map PullRequestFile.filename),
    changed_files_list := files,
    diff_file := diffFilePath }

/-- Modelled from the spec: `PATHS.TEMP_DIR` and `PATHS.DIFF_FILE_PATTERN`
live in `src/config/constants`, not among the provided sources; spec
section 6 fixes the written path to `<TEMP_DIR>/<pattern with the PR number
substituted>` and section 8 names `pr-42.diff` as the pattern instance for
PR 42.  No claim depends on the exact path. -/
def diffFilePathFor (pullNumber : Int) : String :=
  "TEMP_DIR/pr-" ++ toString pullNumber ++ ".diff"

/-- `PRExtractor.writeDiffFile` (pr-extractor.ts lines 127-150): fetches the
diff, writes its (possibly truncated) content to the deterministic path, and
re-raises any failure unchanged after logging.  The file-system write result
is an oracle. -/
def writeDiffFile (maxDiffSize : Nat) (diffResponse : Except JsError (List Char))
    (writeResult : Except JsError Unit) (pullNumber : Int) :
    Except JsError String × List LogEntry :=
  match (GitHubService.getPullRequestDiff maxDiffSize diffResponse).1 with
  | .error e =>
    let r := writeDiffFileCatch e
    (.error r.2, [r.1])
  | .ok _diff =>
    match writeResult with
    | .error e =>
      let r := writeDiffFileCatch e
      (.error r.2, [r.1])
    | .ok _ => (.ok (diffFilePathFor pullNumber), [])

/-- The remote world a single extraction run interacts with: the metadata
response, the per-page file listings, the diff response, and the file-write
outcome. -/
structure RemoteOracle where
  prResponse : Except JsError RawPR
  pages : Nat → Except JsError (List RawFile)
  diffResponse : Except JsError (List Char)
  writeResult : Except JsError Unit

/-- The adapter calls attempted during one extraction, in order. -/
inductive FetchEvent where
  | metadata
  | files
  | diff
deriving DecidableEq

/-- `PRExtractor.performExtraction` (pr-extractor.ts lines 72-125):
guards on the configured service before any fetch, then sequences metadata,
files, and diff-write, short-circuiting on the first failure.  The second
component records which adapter calls were attempted.  `none` means the
pagination fuel ran out (the unbounded `while (true)` loop did not finish
within `fuel` iterations). -/
def performExtraction (maxDiffSize fuel : Nat) (ext : PRExtractor)
    (inputs : ActionInputs) (oracle : RemoteOracle) :
    Option (Except JsError PRData × List FetchEvent) :=
  let pullNumber : Int := inputs.pullNumber.getD 0
  match ext.githubService with
  | none => some (.error (JsError.error "GitHubService not provided"), [])
  | some _svc =>
    match (GitHubService.getPullRequest oracle.prResponse pullNumber).1 with
    | .error e => some (.error e, [.metadata])
    | .ok prData =>
      match GitHubService.getPullRequestFiles oracle.pages fuel with
      | none => none
      | some (.error e) => some (.error e, [.metadata, .files])
      | some (.ok (files, _pageCount)) =>
        match (writeDiffFile maxDiffSize oracle.diffResponse oracle.writeResult pullNumber).1 with
        | .error e => some (.error e, [.metadata, .files, .diff])
        | .ok diffFilePath =>
          some (.ok (assemblePRData prData files diffFilePath), [.metadata, .files, .diff])

/- ---------------------------------------------------------------------
   Helper lemmas. -/

/-- JS `string.endsWith` on the model. -/
def strEndsWith (suffix s : String) : Bool :=
  suffix.toList.isSuffixOf s.toList

theorem strEndsWith_append (a b : String) : strEndsWith b (a ++ b) = true := by
  unfold strEndsWith
  rw [List.isSuffixOf_iff_suffix]
  have hd : (a ++ b).toList = a.toList ++ b.toList := by
    simp [String.toList, String.data_append]
  rw [hd]
  exact List.suffix_append _ _

theorem intercalate_go_eq (s : String) (b : String) (rest : List String) :
    ∀ acc, String.intercalate.go acc s (b :: rest) = acc ++ s ++ jsJoin s (b :: rest) := by
  induction rest generalizing b with
  | nil => intro acc; rfl
  | cons c cs ih =>
    intro acc
    show String.intercalate.go (acc ++ s ++ b) s (c :: cs) = acc ++ s ++ jsJoin s (b :: c :: cs)
    rw [ih c (acc ++ s ++ b)]
    show acc ++ s ++ b ++ s ++ jsJoin s (c :: cs) = acc ++ s ++ (b ++ s ++ jsJoin s (c :: cs))
    simp [String.append_assoc]

theorem jsJoin_eq_intercalate (s : String) (l : List String) :
    jsJoin s l = String.intercalate s l := by
  cases l with
  | nil => rfl
  | cons a rest =>
    cases rest with
    | nil => rfl
    | cons b cs =>
      show jsJoin s (a :: b :: cs) = String.intercalate.go a s (b :: cs)
      rw [intercalate_go_eq s b cs a]
      rfl

/- ---------------------------------------------------------------------
   Claims. -/

/-- C1 (corrected).  For `getPullRequestDiff`: `truncated` is true iff the
UTF-8 byte length of the full text (`size`) exceeds the maximum; when not
truncated, `content` is the full text and `size` its byte length.  But when
truncated, `content` is the first `min maxDiffSize length` UTF-16 code units
of the text — `substring` counts code units while `size` counts bytes, so
`content.length` equals `maxDiffSize` only when the text has at least
`maxDiffSize` code units, which multi-byte text above the byte bound need
not have. -/
theorem c1_diff_truncation (maxDiffSize : Nat) (text : List Char) :
    ((GitHubService.diffOf maxDiffSize text).truncated = true ↔
        maxDiffSize < utf8ByteLength text) ∧
    (GitHubService.diffOf maxDiffSize text).size = utf8ByteLength text ∧
    (GitHubService.diffOf maxDiffSize text).content =
      text.take (if maxDiffSize < utf8ByteLength text then maxDiffSize else text.length) ∧
    (GitHubService.diffOf maxDiffSize text).content.length =
      (if maxDiffSize < utf8ByteLength text then min maxDiffSize text.length
       else text.length) := by
  unfold GitHubService.diffOf
  by_cases h : maxDiffSize < utf8ByteLength text <;>
    simp [h, gt_iff_lt, List.length_take, List.take_length]

/-- C1 counterexample: a diff of two two-byte characters with
`MAX_DIFF_SIZE = 3` is truncated (4 bytes > 3) yet its content keeps
length 2, not `MAX_DIFF_SIZE`. -/
theorem c1_counterexample :
    (GitHubService.diffOf 3 ['é', 'é']).truncated = true ∧
    (GitHubService.diffOf 3 ['é', 'é']).size = 4 ∧
    (GitHubService.diffOf 3 ['é', 'é']).content = ['é', 'é'] ∧
    ¬ (GitHubService.diffOf 3 ['é', 'é']).content.length = 3 := by
  decide

/-- C3 (corrected).  Every base URL configured by the constructor ends with
`/api/v3`, and a URL already ending with the suffix is used unchanged; but
the result need not contain the suffix exactly once (see the
counterexample). -/
theorem c3_base_url (baseUrl : List Char) :
    apiV3.isSuffixOf (normalizeBaseUrl baseUrl) = true ∧
    (apiV3.isSuffixOf baseUrl = true → normalizeBaseUrl baseUrl = baseUrl) := by
  constructor
  · unfold normalizeBaseUrl
    by_cases h1 : apiV3.isSuffixOf baseUrl = true
    · simp [h1]
    · simp only [h1, if_false, Bool.false_eq_true]
      by_cases h2 : (['/'] : List Char).isSuffixOf baseUrl = true
      · simp only [h2, if_true]
        rw [List.isSuffixOf_iff_suffix] at h2 ⊢
        obtain ⟨t, ht⟩ := h2
        have hsplit : ('/' :: "api/v3".toList) = apiV3 := rfl
        rw [← ht, List.append_assoc]
        rw [show (['/'] ++ "api/v3".toList : List Char) = apiV3 from rfl]
        exact List.suffix_append _ _
      · simp only [h2, if_false, Bool.false_eq_true]
        rw [List.isSuffixOf_iff_suffix]
        exact List.suffix_append _ _
  · intro h
    unfold normalizeBaseUrl
    simp [h]

/-- C3 witness: an enterprise URL already carrying the suffix is kept
unchanged. -/
theorem c3_witness :
    apiV3.isSuffixOf ("https://ghe.example.com/api/v3".toList) = true ∧
    normalizeBaseUrl ("https://ghe.example.com/api/v3".toList) =
      "https://ghe.example.com/api/v3".toList :=
  ⟨by decide, (c3_base_url _).2 (by decide)⟩

/-- C3 counterexample: a URL that contains `/api/v3` followed by a trailing
slash does not end with the suffix, so the constructor appends it again and
the configured URL contains `/api/v3` twice, refuting "contains the suffix
exactly once". -/
theorem c3_counterexample :
    normalizeBaseUrl ("https://ghe.example.com/api/v3/".toList) =
      "https://ghe.example.com/api/v3/api/v3".toList ∧
    countOccurs apiV3 (normalizeBaseUrl ("https://ghe.example.com/api/v3/".toList)) = 2 := by
  decide

/-- C7 (confirmed).  `shouldExtract` is true exactly when a positive pull
number, a repository name, and a token are all present; GitHub Actions
delivers an unset input as absent or as the empty string, both of which the
truthiness check treats as not present.  The predicate is a pure `Bool`
function of the inputs. -/
theorem c7_shouldExtract (inputs : ActionInputs) :
    PRExtractor.shouldExtract inputs = true ↔
      (∃ n, inputs.pullNumber = some n ∧ 0 < n) ∧
      (∃ r, inputs.repoName = some r ∧ r ≠ "") ∧
      (∃ t, inputs.githubToken = some t ∧ t ≠ "") := by
  obtain ⟨pn, rn, gt, gu⟩ := inputs
  cases pn <;> cases rn <;> cases gt <;>
    simp only [PRExtractor.shouldExtract, jsTruthyNum, jsGtZero, jsTruthyStr,
      Bool.and_eq_true, bne_iff_ne, ne_eq, decide_eq_true_eq, Bool.false_and,
      Bool.and_false, Bool.false_eq_true, false_iff, false_and, and_false,
      Option.some.injEq] <;>
    try simp_all
  constructor
  · rintro ⟨⟨⟨-, h2⟩, h3⟩, h4⟩
    exact ⟨h2, h3, h4⟩
  · rintro ⟨h2, h3, h4⟩
    refine ⟨⟨⟨?_, h2⟩, h3⟩, h4⟩
    omega

/-- C9 (confirmed).  The assembled record's `body` is the fetched body with
`null` defaulted to the empty string (`prData.body || ''`, and the empty
string is the only falsy string, so this is exactly `Option.getD`), its
`changed_files` is the filenames joined by single newlines in file-list
order, and the file list itself is kept in order. -/
theorem c9_record_assembly (prData : PullRequestInfo) (files : List PullRequestFile)
    (path : String) :
    (assemblePRData prData files path).body = prData.body.getD "" ∧
    (assemblePRData prData files path).changed_files =
      String.intercalate "\n" (files.map PullRequestFile.filename) ∧
    (assemblePRData prData files path).changed_files_list = files := by
  refine ⟨?_, jsJoin_eq_intercalate _ _, rfl⟩
  show jsOrString prData.body "" = prData.body.getD ""
  cases prData.body with
  | none => rfl
  | some s =>
    by_cases hs : s = "" <;> simp [jsOrString, hs, Option.getD]

/-- C2 (corrected).  A 401 during metadata fetch is handled by logging a
message that ends with the authentication remediation text and re-raising
the ORIGINAL error object unchanged; a 404 likewise with its own distinct
remediation text.  No `AuthenticationError` / `NotFoundError` wrapper is
raised — the re-raised errors remain plain HTTP errors, distinguishable
programmatically by their `status` field (401 vs 404), not by error
category. -/
theorem c2_error_guidance (pn : Int) (m : String) :
    (getPullRequestCatch pn (.httpError 401 m)).2 = .httpError 401 m ∧
    (getPullRequestCatch pn (.httpError 404 m)).2 = .httpError 404 m ∧
    strEndsWith authRemediation (getPullRequestCatch pn (.httpError 401 m)).1.message = true ∧
    strEndsWith notFoundRemediation (getPullRequestCatch pn (.httpError 404 m)).1.message = true ∧
    authRemediation ≠ notFoundRemediation ∧
    (getPullRequestCatch pn (.httpError 401 m)).2.category = ErrorCategory.http ∧
    (getPullRequestCatch pn (.httpError 404 m)).2.category = ErrorCategory.http ∧
    (JsError.httpError 401 m).statusOf ≠ (JsError.httpError 404 m).statusOf := by
  refine ⟨rfl, rfl, ?_, ?_, by decide, rfl, rfl, by simp [JsError.statusOf]⟩
  · show strEndsWith authRemediation
      (API_ERROR ++ ": Failed to fetch PR " ++ toString pn ++ authRemediation) = true
    exact strEndsWith_append _ _
  · show strEndsWith notFoundRemediation
      (API_ERROR ++ ": Failed to fetch PR " ++ toString pn ++ notFoundRemediation) = true
    exact strEndsWith_append _ _

/-- C2 counterexample: when the metadata fetch fails with a 401, the error
reaching the caller is the original HTTP error — not an
authentication-category error — and its message is still the remote message,
free of any remediation guidance. -/
theorem c2_counterexample :
    (GitHubService.getPullRequest (.error (.httpError 401 "Bad credentials")) 5).1 =
      .error (.httpError 401 "Bad credentials") ∧
    (JsError.httpError 401 "Bad credentials").category ≠ ErrorCategory.authentication ∧
    (JsError.httpError 401 "Bad credentials").message = "Bad credentials" ∧
    strEndsWith authRemediation (JsError.httpError 401 "Bad credentials").message = false := by
  refine ⟨rfl, by decide, rfl, by decide⟩

/-- C5 (corrected).  The metadata, files, and diff fetches and the diff-file
write all log the failure at error level and then re-raise the very same
error value unchanged.  The authentication test, however, logs and then
throws a NEW plain `Error` (a generic-category error) built from the status,
replacing the original error object — so the claim's inclusion of the
authentication test fails. -/
theorem c5_rethrow_unchanged (pn : Int) (e : JsError) :
    (getPullRequestCatch pn e).2 = e ∧
    (getPullRequestFilesCatch e).2 = e ∧
    (getPullRequestDiffCatch e).2 = e ∧
    (writeDiffFileCatch e).2 = e ∧
    (getPullRequestCatch pn e).1.level = .error ∧
    (getPullRequestFilesCatch e).1.level = .error ∧
    (getPullRequestDiffCatch e).1.level = .error ∧
    (writeDiffFileCatch e).1.level = .error ∧
    (testAuthenticationCatch e).1.level = .error ∧
    (testAuthenticationCatch e).2.category = ErrorCategory.generic := by
  refine ⟨?_, rfl, rfl, rfl, ?_, rfl, rfl, rfl, rfl, ?_⟩
  · unfold getPullRequestCatch
    split_ifs <;> rfl
  · unfold getPullRequestCatch
    split_ifs <;> rfl
  · unfold testAuthenticationCatch
    split_ifs <;> rfl

/-- C5 counterexample: `testAuthentication` failing with a 401 does not
re-raise the original error object; it raises a freshly constructed
`Error` with a fixed message. -/
theorem c5_counterexample :
    (testAuthenticationCatch (.httpError 401 "Bad credentials")).2 =
      .error "GitHub authentication failed. Please check your token and ensure it has the required permissions." ∧
    (testAuthenticationCatch (.httpError 401 "Bad credentials")).2 ≠
      .httpError 401 "Bad credentials" := by
  exact ⟨rfl, by decide⟩

/-- Behaviour of the pagination loop on a run whose pages `page..k-1` are
full (exactly 100 entries) and whose page `k` is short: the loop fetches
exactly the pages up to `k` and accumulates their translations in request
order. -/
theorem fetchFilesLoop_pages (pages : Nat → Except JsError (List RawFile))
    (d : Nat → List RawFile) (k : Nat) (hlast : (d k).length < 100) :
    ∀ (fuel page : Nat) (acc : List PullRequestFile),
      (∀ j, page ≤ j → j ≤ k → pages j = .ok (d j)) →
      (∀ j, page ≤ j → j < k → (d j).length = 100) →
      page ≤ k →
      k + 1 ≤ page + fuel →
      GitHubService.fetchFilesLoop pages fuel page acc =
        some (.ok (acc ++ (List.range' page (k + 1 - page)).flatMap
          (fun j => (d j).map GitHubService.toPullRequestFile), k)) := by
  intro fuel
  induction fuel with
  | zero =>
    intro page acc _ _ hpk hfuel
    omega
  | succ fuel ih =>
    intro page acc hok hfull hpk hfuel
    have hstep := hok page le_rfl hpk
    rw [show GitHubService.fetchFilesLoop pages (fuel + 1) page acc =
      (match pages page with
       | .error e => some (.error e)
       | .ok data =>
         if data.length < 100 then
           some (.ok (acc ++ data.map GitHubService.toPullRequestFile, page))
         else
           GitHubService.fetchFilesLoop pages fuel (page + 1)
             (acc ++ data.map GitHubService.toPullRequestFile)) from rfl]
    rw [hstep]
    show (if (d page).length < 100 then
           some (.ok (acc ++ (d page).map GitHubService.toPullRequestFile, page))
         else
           GitHubService.fetchFilesLoop pages fuel (page + 1)
             (acc ++ (d page).map GitHubService.toPullRequestFile)) = _
    by_cases hpage : page = k
    · subst hpage
      simp only [if_pos hlast]
      have h1 : page + 1 - page = 1 := by omega
      rw [h1, List.range'_one]
      simp
    · have hlt : page < k := by omega
      have h100 : (d page).length = 100 := hfull page le_rfl hlt
      rw [if_neg (by omega)]
      rw [ih (page + 1) (acc ++ (d page).map GitHubService.toPullRequestFile)
        (fun j hj1 hj2 => hok j (by omega) hj2)
        (fun j hj1 hj2 => hfull j (by omega) hj2)
        (by omega) (by omega)]
      have h2 : k + 1 - page = (k - page) + 1 := by omega
      have h3 : k + 1 - (page + 1) = k - page := by omega
      rw [h2, h3, List.range'_succ]
      simp [List.append_assoc]

/-- C4 (confirmed).  When the remote listing consists of pages `1..k-1` each
holding exactly the page size (100) and a final short page `k` (the remote
page-size contract caps a page at 100 entries), `getPullRequestFiles`
returns exactly the concatenation of the per-page translations in request
order, having fetched pages `1..k` — so page `N+1` is requested iff page `N`
returned exactly 100 entries, and the loop stops at the first short page.
The result length is the sum of the per-page lengths: nothing is reordered,
dropped, or deduplicated.  `fuel` bounds the unbounded `while (true)` loop;
any fuel of at least `k` iterations suffices. -/
theorem c4_pagination (pages : Nat → Except JsError (List RawFile))
    (d : Nat → List RawFile) (k fuel : Nat)
    (hk : 1 ≤ k)
    (hok : ∀ j, 1 ≤ j → j ≤ k → pages j = .ok (d j))
    (hfull : ∀ j, 1 ≤ j → j < k → (d j).length = 100)
    (hlast : (d k).length < 100)
    (hfuel : k ≤ fuel) :
    GitHubService.getPullRequestFiles pages fuel =
      some (.ok ((List.range' 1 k).flatMap
        (fun j => (d j).map GitHubService.toPullRequestFile), k)) ∧
    ((List.range' 1 k).flatMap
        (fun j => (d j).map GitHubService.toPullRequestFile)).length =
      ((List.range' 1 k).map (fun j => (d j).length)).sum := by
  constructor
  · unfold GitHubService.getPullRequestFiles
    rw [fetchFilesLoop_pages pages d k hlast fuel 1 [] hok hfull hk (by omega)]
    simp [Nat.add_sub_cancel]
  · simp [List.length_flatMap, List.length_map, Function.comp_def]

/-- A concrete file entry used by witnesses. -/
def sampleRawFile : RawFile :=
  { filename := "a.ts", status := "modified", additions := 1, deletions := 2, changes := 3 }

/-- Page oracle for the C4 witness: page 1 is full (100 entries), page 2 is
short (1 entry). -/
def w4pages : Nat → Except JsError (List RawFile) :=
  fun j => if j = 1 then .ok (List.replicate 100 sampleRawFile) else .ok [sampleRawFile]

def w4d : Nat → List RawFile :=
  fun j => if j = 1 then List.replicate 100 sampleRawFile else [sampleRawFile]

/-- C4 witness: with a full page 1 and a short page 2, the loop fetches both
pages (and only them) and returns their 101 entries concatenated in order. -/
theorem c4_witness :
    GitHubService.getPullRequestFiles w4pages 2 =
      some (.ok (List.replicate 100 (GitHubService.toPullRequestFile sampleRawFile) ++
        [GitHubService.toPullRequestFile sampleRawFile], 2)) ∧
    (List.replicate 100 (GitHubService.toPullRequestFile sampleRawFile) ++
        [GitHubService.toPullRequestFile sampleRawFile]).length = 101 := by
  have h := (c4_pagination w4pages w4d 2 2 (by omega)
    (by intro j h1 h2; by_cases hj : j = 1 <;> simp [w4pages, w4d, hj])
    (by intro j h1 h2
        have : j = 1 := by omega
        simp [this, w4d])
    (by simp [w4d])
    (by omega)).1
  rw [h]
  constructor
  · rfl
  · simp

/-- C6 (corrected).  `PRExtractor.create` is a total function (creation
never throws): whenever it does hand back a configured extractor, the repo
name and token were truthily present, the repo name parsed, and the service
construction succeeded — in every other case (absent inputs, parse failure,
construction failure) the extractor carries no service.  And extraction on
a service-less extractor fails immediately, with an empty fetch trace (no
remote call is attempted) — but the precondition error message thrown at
pr-extractor.ts line 78 is `GitHubService not provided` (capital H), not
the `GithubService not provided` the claim quotes (see the
counterexample). -/
theorem c6_create_fallback (parseRepoName : String → Except JsError RepoInfo)
    (octokitInit : Option (List Char) → Except JsError Unit)
    (inputs inputs2 : ActionInputs) (svc : GitHubServiceState)
    (maxDiffSize fuel : Nat) (oracle : RemoteOracle)
    (h : PRExtractor.create parseRepoName octokitInit inputs =
      { githubService := some svc }) :
    (jsTruthyStr inputs.repoName = true ∧ jsTruthyStr inputs.githubToken = true ∧
      ∃ r, parseRepoName (inputs.repoName.getD "") = .ok r ∧
        GitHubService.construct octokitInit
          { token := inputs.githubToken.getD "", owner := r.owner,
            repo := r.repo, baseUrl := inputs.githubApiUrl } = .ok svc) ∧
    performExtraction maxDiffSize fuel { githubService := none } inputs2 oracle =
      some (.error (JsError.error "GitHubService not provided"), []) := by
  constructor
  · unfold PRExtractor.create at h
    split at h
    · next h1 =>
      simp only [Bool.and_eq_true] at h1
      refine ⟨h1.1, h1.2, ?_⟩
      split at h
      · next e heq => simp at h
      · next r heq =>
        split at h
        · next e heq2 => simp at h
        · next s heq2 =>
          have hs : s = svc := by
            have h3 := congrArg PRExtractor.githubService h
            simpa using h3
          exact ⟨r, heq, by rw [heq2, hs]⟩
    · next h1 => simp at h
  · rfl

/-- Inputs for the C6 witness: complete, with an always-succeeding parser
and client constructor. -/
def w6inputs : ActionInputs :=
  { pullNumber := some 42, repoName := some "o/r", githubToken := some "t",
    githubApiUrl := none }

def w6parse : String → Except JsError RepoInfo := fun _ => .ok { owner := "o", repo := "r" }

def w6init : Option (List Char) → Except JsError Unit := fun _ => .ok ()

def w6oracle : RemoteOracle :=
  { prResponse := .error (.httpError 500 "unreachable"), pages := fun _ => .ok [],
    diffResponse := .ok [], writeResult := .ok () }

/-- C6 witness: with complete inputs creation configures the service, and an
unconfigured extractor fails extraction with the precondition error before
any fetch. -/
theorem c6_witness :
    PRExtractor.create w6parse w6init w6inputs =
      { githubService := some { token := "t", owner := "o", repo := "r", baseUrl := none } } ∧
    jsTruthyStr w6inputs.repoName = true ∧
    performExtraction 1000 1 { githubService := none } w6inputs w6oracle =
      some (.error (JsError.error "GitHubService not provided"), []) := by
  have h := c6_create_fallback w6parse w6init w6inputs w6inputs
    { token := "t", owner := "o", repo := "r", baseUrl := none } 1000 1 w6oracle rfl
  exact ⟨rfl, h.1.1, h.2⟩

/-- C6 counterexample: the precondition error an unconfigured extractor
fails with is `GitHubService not provided` (capital H, pr-extractor.ts
line 78), not the `GithubService not provided` of the claim — the program
never throws the claimed string. -/
theorem c6_counterexample :
    performExtraction 1000 1 { githubService := none } w6inputs w6oracle =
      some (.error (JsError.error "GitHubService not provided"), []) ∧
    JsError.error "GitHubService not provided" ≠
      JsError.error "GithubService not provided" := by
  exact ⟨rfl, by decide⟩

/-- C8 (confirmed).  In every successfully translated metadata record the
author login is the remote login when one is (truthily) present, and the
sentinel `"unknown"` when the remote user object or its login is absent or
null (the JS `||` default also maps an empty login string, the only other
falsy string value, to the sentinel). -/
theorem c8_author_default (data : RawPR) (info : PullRequestInfo)
    (h : mapPullRequest data = .ok info) :
    (data.user = none → info.user.login = "unknown") ∧
    (∀ u, data.user = some u → u.login = none → info.user.login = "unknown") ∧
    (∀ u l, data.user = some u → u.login = some l → l ≠ "" → info.user.login = l) := by
  have hlogin : info.user.login = jsOrString (data.user.bind RawUser.login) "unknown" := by
    unfold mapPullRequest at h
    cases hbd : branchData data.head with
    | error e => rw [hbd] at h; simp [Bind.bind, Except.bind] at h
    | ok hd =>
      cases hbs : branchData data.base with
      | error e => rw [hbd, hbs] at h; simp [Bind.bind, Except.bind] at h
      | ok bs =>
        rw [hbd, hbs] at h
        simp only [Bind.bind, Except.bind, Except.ok.injEq] at h
        rw [← h]
  refine ⟨?_, ?_, ?_⟩
  · intro hu
    rw [hlogin, hu]
    rfl
  · intro u hu hl
    rw [hlogin, hu]
    simp [Option.bind, hl, jsOrString]
  · intro u l hu hl hne
    rw [hlogin, hu]
    simp [Option.bind, hl, jsOrString, hne]

/-- Raw metadata payload for the C8 witness. -/
def w8data : RawPR :=
  { number := 7, title := some "Fix bug", body := none, state := some "open",
    user := some { login := some "alice" },
    head := some { ref := some "fix", sha := some "abc123",
                   repo := some { full_name := some "o/r", name := some "r",
                                  owner := some { login := some "o" } } },
    base := some { ref := some "main", sha := some "def456",
                   repo := some { full_name := some "o/r", name := some "r",
                                  owner := some { login := some "o" } } } }

/-- The translation of `w8data`. -/
def w8info : PullRequestInfo :=
  { number := 7, title := some "Fix bug", body := none, state := some "open",
    user := { login := "alice" },
    head := { ref := some "fix", sha := some "abc123",
              repo := { full_name := some "o/r", name := some "r",
                        owner := { login := some "o" } } },
    base := { ref := some "main", sha := some "def456",
              repo := { full_name := some "o/r", name := some "r",
                        owner := { login := some "o" } } } }

/-- C8 witness: a present login is carried through verbatim. -/
theorem c8_witness :
    mapPullRequest w8data = .ok w8info ∧ w8info.user.login = "alice" :=
  ⟨rfl, (c8_author_default w8data w8info rfl).2.2 { login := some "alice" } "alice"
    rfl rfl (by decide)⟩

/-- The TypeError raised by dereferencing an absent `repo` object
(the `....repo.full_name` access, the first field read on the repo). -/
def readingFullName : JsError :=
  .typeError "Cannot read properties of undefined (reading full_name)"

/-- The TypeError raised by dereferencing an absent `owner` object
(the `....repo.owner.login` access). -/
def readingLogin : JsError :=
  .typeError "Cannot read properties of undefined (reading login)"

/-- The log entry of the generic (status-less) failure branch of
`getPullRequest`'s catch block. -/
def genericFetchLog (pn : Int) : LogEntry :=
  { level := .error, message := API_ERROR ++ ": Failed to fetch PR " ++ toString pn }

theorem branchData_some (hd : RawBranch) :
    branchData (some hd) =
      (match hd.repo with
       | none => Except.error readingFullName
       | some r =>
         match r.owner with
         | none => Except.error readingLogin
         | some o =>
           (Except.ok { ref := hd.ref, sha := hd.sha,
                        repo := { full_name := r.full_name, name := r.name,
                                  owner := { login := o.login } } } :
             Except JsError BranchData)) := rfl

theorem branchData_repo_none (hd : RawBranch) (h : hd.repo = none) :
    branchData (some hd) = .error readingFullName := by
  rw [branchData_some hd, h]

theorem branchData_owner_none (hd : RawBranch) (r : RawRepo)
    (h1 : hd.repo = some r) (h2 : r.owner = none) :
    branchData (some hd) = .error readingLogin := by
  rw [branchData_some hd, h1]
  show (match r.owner with
        | none => Except.error readingLogin
        | some o =>
          (Except.ok { ref := hd.ref, sha := hd.sha,
                       repo := { full_name := r.full_name, name := r.name,
                                 owner := { login := o.login } } } :
            Except JsError BranchData)) = _
  rw [h2]

theorem branchData_owner_some (hd : RawBranch) (r : RawRepo) (o : RawRepoOwner)
    (h1 : hd.repo = some r) (h2 : r.owner = some o) :
    branchData (some hd) =
      .ok { ref := hd.ref, sha := hd.sha,
            repo := { full_name := r.full_name, name := r.name,
                      owner := { login := o.login } } } := by
  rw [branchData_some hd, h1]
  show (match r.owner with
        | none => Except.error readingLogin
        | some o =>
          (Except.ok { ref := hd.ref, sha := hd.sha,
                       repo := { full_name := r.full_name, name := r.name,
                                 owner := { login := o.login } } } :
            Except JsError BranchData)) = _
  rw [h2]

theorem mapPullRequest_bind (data : RawPR) :
    mapPullRequest data =
      (branchData data.head).bind (fun hd =>
        (branchData data.base).bind (fun bs =>
          Except.ok { number := data.number, title := data.title, body := data.body,
                      state := data.state,
                      user := { login := jsOrString (data.user.bind RawUser.login) "unknown" },
                      head := hd, base := bs })) := rfl

theorem mapPullRequest_head_error (data : RawPR) (e : JsError)
    (h : branchData data.head = .error e) : mapPullRequest data = .error e := by
  rw [mapPullRequest_bind, h]
  rfl

theorem mapPullRequest_base_error (data : RawPR) (hd : BranchData) (e : JsError)
    (h1 : branchData data.head = .ok hd)
    (h2 : branchData data.base = .error e) : mapPullRequest data = .error e := by
  rw [mapPullRequest_bind, h1, h2]
  rfl

theorem getPullRequest_typeError (data : RawPR) (pn : Int) (m : String)
    (h : mapPullRequest data = .error (.typeError m)) :
    GitHubService.getPullRequest (.ok data) pn =
      (.error (.typeError m), [genericFetchLog pn]) := by
  unfold GitHubService.getPullRequest
  show (match mapPullRequest data with
        | .error e =>
          ((Except.error (getPullRequestCatch pn e).2 : Except JsError PullRequestInfo),
           [(getPullRequestCatch pn e).1])
        | .ok info => (Except.ok info, ([] : List LogEntry))) = _
  rw [h]
  rfl

/-- C10 (corrected).  Only the PR author's login is defaulted.  A payload
whose `head.repo` or `base.repo`, or whose `repo.owner` object on either
side, is absent or null makes `getPullRequest` raise the TypeError from the
property access, surfaced through the generic failure path: the raised
error carries no HTTP status, so neither the 401 nor the 404 guidance
branch fires and the logged entry is the generic API-error line (a missing
`base`-side object raises only once the `head` side dereferenced cleanly,
matching the object literal's evaluation order).  Absent leaf fields
(`full_name`, `name`, `owner.login`), however, do NOT raise: they flow into
the returned record as absent values (see the counterexample). -/
theorem c10_nested_null_guard (data : RawPR) (pn : Int) :
    (readingFullName.statusOf = none ∧ readingLogin.statusOf = none) ∧
    (∀ hd, data.head = some hd → hd.repo = none →
      GitHubService.getPullRequest (.ok data) pn =
        (.error readingFullName, [genericFetchLog pn])) ∧
    (∀ hd r, data.head = some hd → hd.repo = some r → r.owner = none →
      GitHubService.getPullRequest (.ok data) pn =
        (.error readingLogin, [genericFetchLog pn])) ∧
    (∀ hd r o b, data.head = some hd → hd.repo = some r → r.owner = some o →
      data.base = some b → b.repo = none →
      GitHubService.getPullRequest (.ok data) pn =
        (.error readingFullName, [genericFetchLog pn])) ∧
    (∀ hd r o b br, data.head = some hd → hd.repo = some r → r.owner = some o →
      data.base = some b → b.repo = some br → br.owner = none →
      GitHubService.getPullRequest (.ok data) pn =
        (.error readingLogin, [genericFetchLog pn])) := by
  refine ⟨⟨rfl, rfl⟩, ?_, ?_, ?_, ?_⟩
  · intro hd h1 h2
    exact getPullRequest_typeError data pn _
      (mapPullRequest_head_error data readingFullName
        (by rw [h1]; exact branchData_repo_none hd h2))
  · intro hd r h1 h2 h3
    exact getPullRequest_typeError data pn _
      (mapPullRequest_head_error data readingLogin
        (by rw [h1]; exact branchData_owner_none hd r h2 h3))
  · intro hd r o b h1 h2 h3 h4 h5
    exact getPullRequest_typeError data pn _
      (mapPullRequest_base_error data _ readingFullName
        (by rw [h1]; exact branchData_owner_some hd r o h2 h3)
        (by rw [h4]; exact branchData_repo_none b h5))
  · intro hd r o b br h1 h2 h3 h4 h5 h6
    exact getPullRequest_typeError data pn _
      (mapPullRequest_base_error data _ readingLogin
        (by rw [h1]; exact branchData_owner_some hd r o h2 h3)
        (by rw [h4]; exact branchData_owner_none b br h5 h6))

/-- Raw payload for the C10 witness: `head.repo` itself is null. -/
def w10data : RawPR :=
  { number := 3, title := some "t", body := none, state := some "open",
    user := some { login := some "u" },
    head := some { ref := some "fix", sha := some "abc", repo := none },
    base := none }

/-- C10 witness: a null `head.repo` makes the metadata fetch raise the
status-less TypeError through the generic path. -/
theorem c10_witness :
    GitHubService.getPullRequest (.ok w10data) 3 =
      (.error readingFullName, [genericFetchLog 3]) :=
  (c10_nested_null_guard w10data 3).2.1
    { ref := some "fix", sha := some "abc", repo := none } rfl rfl

/-- Raw payload for the C10 counterexample: all dereferenced objects are
present but the leaf field `head.repo.full_name` is absent. -/
def w10cdata : RawPR :=
  { number := 4, title := some "t", body := some "b", state := some "open",
    user := some { login := some "u" },
    head := some { ref := some "h", sha := some "s1",
                   repo := some { full_name := none, name := some "r",
                                  owner := some { login := some "o" } } },
    base := some { ref := some "m", sha := some "s2",
                   repo := some { full_name := some "o/r", name := some "r",
                                  owner := some { login := some "o" } } } }

/-- The record `getPullRequest` returns for `w10cdata`. -/
def w10cinfo : PullRequestInfo :=
  { number := 4, title := some "t", body := some "b", state := some "open",
    user := { login := "u" },
    head := { ref := some "h", sha := some "s1",
              repo := { full_name := none, name := some "r",
                        owner := { login := some "o" } } },
    base := { ref := some "m", sha := some "s2",
              repo := { full_name := some "o/r", name := some "r",
                        owner := { login := some "o" } } } }

/-- C10 counterexample: with `head.repo.full_name` absent the claim demands
an error, but `getPullRequest` returns successfully, carrying the absent
field through. -/
theorem c10_counterexample :
    GitHubService.getPullRequest (.ok w10cdata) 4 = (.ok w10cinfo, []) ∧
    w10cinfo.head.repo.full_name = none :=
  ⟨rfl, rfl⟩

end PRX
